import Mathlib

/-!
Verification development for the dpdk_100g repository.

Shallow embedding of the core data structures and algorithms:
  * the OctoSketch probabilistic counter
    (src/mira/detector_system_ml/octosketch.h),
  * the detection tick of the MIRA DDoS detector
    (src/mira/detector_system/mira_ddos_detector.c, detect_attacks),
  * the per-packet worker step of the same detector (worker_thread),
  * the token-bucket pacer and TX-burst buffer accounting of the PCAP
    replayer (src/mira/benign_sender/dpdk_pcap_sender_v2.c),
  * the phase scheduler of the adaptive replay loop (same file),
  * the QUIC ACK-frame scanner
    (src/quic/detector_system/quic_optimistic_ack_detector.c).

Machine integers are modelled as Nat with explicit reduction modulo
2^32 (uint32_t) or 2^64 (uint64_t) at every operation where the C code
can wrap.  C double arithmetic on rates and latencies is modelled with
exact rationals; the IEEE rounding of individual operations is
abstracted, the integer/rational structure of every comparison is kept.
-/

/-! ## Machine arithmetic helpers -/

/-- uint32 addition (wraps modulo 2^32). -/
def add32 (a b : Nat) : Nat := (a + b) % 4294967296

/-- uint64 addition (wraps modulo 2^64). -/
def add64 (a b : Nat) : Nat := (a + b) % 18446744073709551616

/-- uint32 subtraction (wraps modulo 2^32); both arguments below 2^32. -/
def sub32 (a b : Nat) : Nat := (a + 4294967296 - b % 4294967296) % 4294967296

/-- uint32 left-rotation by k bits (0 < k < 32), as in the DPDK rot macro:
the left shift wraps modulo 2^32 and is or-ed with the high bits. -/
def rot32 (x k : Nat) : Nat := ((x <<< k) % 4294967296) ||| (x >>> (32 - k))

/-! ## Jenkins hash (rte_jhash_1word)

The sketch hashes with rte_jhash_1word, which is external DPDK framework
code (not part of this repository; the spec only requires a universal
32-bit family, naming Jenkins).  It is modelled here from the standard
DPDK implementation: the lookup3 final mix over three words seeded with
the golden ratio 0xdeadbeef, the initval biased by the 4-byte length. -/

/-- One sequential step c = (c ^^^ b) - rot(b, k) of the final mix. -/
def mixStep (c b : Nat) (k : Nat) : Nat := sub32 (c ^^^ b) (rot32 b k)

/-- The lookup3 final mix; returns the c word. -/
def jhashFinal (a b c : Nat) : Nat :=
  let c := mixStep c b 14
  let a := mixStep a c 11
  let b := mixStep b a 25
  let c := mixStep c b 16
  let a := mixStep a c 4
  let b := mixStep b a 14
  let c := mixStep c b 24
  c

/-- rte_jhash_1word (modelled): hash one 32-bit word with an init value. -/
def rte_jhash_1word (a initval : Nat) : Nat :=
  let iv := add32 initval 4
  let a0 := add32 a (add32 0xdeadbeef iv)
  let b0 := add32 0 (add32 0xdeadbeef iv)
  let c0 := add32 0 (add32 0xdeadbeef iv)
  jhashFinal a0 b0 c0

/-! ## OctoSketch (src/mira/detector_system_ml/octosketch.h) -/

/-- SKETCH_ROWS. -/
def SKETCH_ROWS : Nat := 8

/-- SKETCH_COLS (power of two). -/
def SKETCH_COLS : Nat := 4096

/-- SKETCH_MASK = SKETCH_COLS - 1. -/
def SKETCH_MASK : Nat := 4095

/-- struct octosketch.  The counter matrix and the 2^16-slot IP histogram
are total functions (row, column) out of Nat; all stored values are kept
below 2^32 (the cells are uint32_t) respectively 2^64 (the accumulators
are uint64_t).  The char name[32] metadata field is omitted. -/
structure Octosketch where
  counters : Nat → Nat → Nat
  seeds : Nat → Nat
  total_updates : Nat
  total_bytes : Nat
  ip_counts : Nat → Nat
  window_start_tsc : Nat

/-- The eight per-row seeds installed by octosketch_init. -/
def defaultSeeds : Nat → Nat := fun i =>
  [0xdeadbeef, 0xc0ffee00, 0xbaadf00d, 0xfeedface,
   0xcafebabe, 0x12345678, 0x9abcdef0, 0x11223344].getD i 0

/-- octosketch_init: zero the whole structure, then install the seeds. -/
def octosketch_init : Octosketch :=
  { counters := fun _ _ => 0
    seeds := defaultSeeds
    total_updates := 0
    total_bytes := 0
    ip_counts := fun _ => 0
    window_start_tsc := 0 }

/-- octosketch_hash: row hash masked to a column index. -/
def octosketch_hash (key seed : Nat) : Nat :=
  rte_jhash_1word key seed &&& SKETCH_MASK

/-- counters[r][c] += v on the counter matrix (uint32 wrap). -/
def bumpCell (f : Nat → Nat → Nat) (r c v : Nat) : Nat → Nat → Nat :=
  fun r' c' => if r' = r ∧ c' = c then add32 (f r' c') v else f r' c'

/-- The row loop of octosketch_update_ip over the first m rows:
for i in [0, m): counters[i][hash(ip, seeds[i])] += increment. -/
def updateRows (f : Nat → Nat → Nat) (seeds : Nat → Nat) (ip increment : Nat) :
    Nat → (Nat → Nat → Nat)
  | 0 => f
  | m + 1 =>
      bumpCell (updateRows f seeds ip increment m)
        m (octosketch_hash ip (seeds m)) increment

/-- octosketch_update_ip: bump every row at its hashed column, bump the
16-bit IP histogram slot, and bump total_updates. -/
def octosketch_update_ip (s : Octosketch) (ip increment : Nat) : Octosketch :=
  let ip_idx := ((ip >>> 16) ^^^ (ip &&& 0xFFFF)) % 65536
  { s with
    counters := updateRows s.counters s.seeds ip increment SKETCH_ROWS
    ip_counts := fun j => if j = ip_idx then add32 (s.ip_counts j) increment
                          else s.ip_counts j
    total_updates := add64 s.total_updates increment }

/-- octosketch_update_bytes. -/
def octosketch_update_bytes (s : Octosketch) (bytes : Nat) : Octosketch :=
  { s with total_bytes := add64 s.total_bytes bytes }

/-- The row loop of octosketch_query_ip over the first m rows, folding a
running minimum that starts at UINT32_MAX. -/
def queryRows (s : Octosketch) (ip : Nat) : Nat → Nat
  | 0 => 4294967295
  | m + 1 =>
      let acc := queryRows s ip m
      let c := s.counters m (octosketch_hash ip (s.seeds m))
      if c < acc then c else acc

/-- octosketch_query_ip: conservative minimum over all rows. -/
def octosketch_query_ip (s : Octosketch) (ip : Nat) : Nat :=
  queryRows s ip SKETCH_ROWS

/-- Accumulate one source sketch into the destination (the body of the
merge loop over s: cell-wise uint32 additions over the full matrix and
histogram, uint64 additions of the accumulators). -/
def mergeOne (dst src : Octosketch) : Octosketch :=
  { dst with
    counters := fun i j =>
      if i < SKETCH_ROWS ∧ j < SKETCH_COLS then add32 (dst.counters i j) (src.counters i j)
      else dst.counters i j
    ip_counts := fun j =>
      if j < 65536 then add32 (dst.ip_counts j) (src.ip_counts j) else dst.ip_counts j
    total_updates := add64 dst.total_updates src.total_updates
    total_bytes := add64 dst.total_bytes src.total_bytes }

/-- octosketch_merge: zero the destination counters, histogram and
accumulators, then sum every source sketch in (element-wise).  The
destination seeds and window_start_tsc are untouched, as in the source.
Models the non-aliased call of detect_attacks (the merged sketch is a
distinct object from every worker sketch). -/
def octosketch_merge (dst : Octosketch) (srcs : List Octosketch) : Octosketch :=
  let z := { dst with
             counters := fun _ _ => 0
             ip_counts := fun _ => 0
             total_updates := 0
             total_bytes := 0 }
  srcs.foldl mergeOne z

/-- octosketch_reset: zero cells, histogram and accumulators. -/
def octosketch_reset (s : Octosketch) : Octosketch :=
  { s with
    counters := fun _ _ => 0
    ip_counts := fun _ => 0
    total_updates := 0
    total_bytes := 0 }

/-- n repetitions of update(k, w) on a sketch. -/
def updateN (s : Octosketch) (k w : Nat) : Nat → Octosketch
  | 0 => s
  | n + 1 => octosketch_update_ip (updateN s k w n) k w

/-! ## MIRA DDoS detector (src/mira/detector_system/mira_ddos_detector.c)

The detection tick detect_attacks runs on the coordinator.  Times are
raw TSC values (Nat); rates and latencies are C doubles, modelled as
exact rationals.  The snprintf-built alert_reason string is modelled as
the list of evidence clauses appended, in order. -/

/-- NUM_RX_QUEUES. -/
def NUM_RX_QUEUES : Nat := 14

/-- SKETCH_SAMPLE_RATE. -/
def SKETCH_SAMPLE_RATE : Nat := 32

/-- ALERT_NONE. -/
def ALERT_NONE : Nat := 0

/-- ALERT_HIGH. -/
def ALERT_HIGH : Nat := 3

/-- One evidence clause of the alert reason. -/
inductive RuleTag where
  | udpFlood | synFlood | icmpFlood | httpFlood | multiAttack
  deriving DecidableEq, Repr

/-- The fields of a per-worker stats block read by detect_attacks. -/
structure WorkerView where
  syn_packets : Nat
  udp_packets : Nat
  icmp_packets : Nat
  http_requests : Nat
  dns_queries : Nat

/-- The inputs detect_attacks reads from the workers on one tick: the
per-worker window arrays and the live per-worker stats blocks (each list
holds NUM_RX_QUEUES entries, one per RX queue). -/
structure CoordInput where
  window_baseline_pkts : List Nat
  window_attack_pkts : List Nat
  worker_stats : List WorkerView

/-- The subset of struct detection_stats that detect_attacks touches. -/
structure DetectState where
  last_fast_detection_tsc : Nat
  window_start_tsc : Nat
  alert_level : Nat
  alert_reason : List RuleTag
  udp_flood_detections : Nat
  syn_flood_detections : Nat
  icmp_flood_detections : Nat
  http_flood_detections : Nat
  total_flood_detections : Nat
  total_detection_events : Nat
  first_attack_packet_tsc : Nat
  first_detection_tsc : Nat
  last_detection_tsc : Nat
  detection_triggered : Bool
  total_packets : Nat
  total_bytes : Nat
  packets_until_detection : Nat
  bytes_until_detection : Nat
  detection_latency_ms : ℚ
  min_detection_latency_ms : ℚ
  max_detection_latency_ms : ℚ
  sum_detection_latencies_ms : ℚ
  detections_under_20ms : Nat
  detections_20_30ms : Nat
  detections_30_40ms : Nat
  detections_40_50ms : Nat
  detections_over_50ms : Nat

/-- The all-zero detection_stats (memset in main). -/
def initDetectState : DetectState :=
  { last_fast_detection_tsc := 0, window_start_tsc := 0
    alert_level := 0, alert_reason := []
    udp_flood_detections := 0, syn_flood_detections := 0
    icmp_flood_detections := 0, http_flood_detections := 0
    total_flood_detections := 0, total_detection_events := 0
    first_attack_packet_tsc := 0, first_detection_tsc := 0
    last_detection_tsc := 0, detection_triggered := false
    total_packets := 0, total_bytes := 0
    packets_until_detection := 0, bytes_until_detection := 0
    detection_latency_ms := 0, min_detection_latency_ms := 0
    max_detection_latency_ms := 0, sum_detection_latencies_ms := 0
    detections_under_20ms := 0, detections_20_30ms := 0
    detections_30_40ms := 0, detections_40_50ms := 0
    detections_over_50ms := 0 }

/-- Window length in seconds at tick time cur_tsc (double division). -/
def windowSecQ (st : DetectState) (cur_tsc hz : Nat) : ℚ :=
  ((cur_tsc - st.window_start_tsc : Nat) : ℚ) / (hz : ℚ)

/-- A per-second rate: count over window seconds (double division). -/
def ratePps (count : Nat) (window_sec : ℚ) : ℚ := (count : ℚ) / window_sec

/-- The detection-timestamp-tracking block of detect_attacks (the body
of the `if (attack_detected)` branch): count the event; on the first
event initialise the first-detection metrics from the latency since the
first attack packet; on later events fold the inter-detection latency
into min/max/sum and one of the five histogram bins, then move
last_detection_tsc. -/
def record_detection (st : DetectState) (cur_tsc hz : Nat) : DetectState :=
  let st := { st with total_detection_events := add64 st.total_detection_events 1 }
  let current_latency_ms : ℚ :=
    if st.first_attack_packet_tsc > 0 then
      ((cur_tsc - st.first_attack_packet_tsc : Nat) : ℚ) * 1000 / (hz : ℚ)
    else 0
  if ¬ st.detection_triggered then
    { st with
      first_detection_tsc := cur_tsc
      last_detection_tsc := cur_tsc
      detection_triggered := true
      packets_until_detection := st.total_packets
      bytes_until_detection := st.total_bytes
      detection_latency_ms := current_latency_ms
      min_detection_latency_ms := current_latency_ms
      max_detection_latency_ms := current_latency_ms
      sum_detection_latencies_ms := current_latency_ms }
  else
    let inter_detection_ms : ℚ :=
      ((cur_tsc - st.last_detection_tsc : Nat) : ℚ) * 1000 / (hz : ℚ)
    let st := { st with
      min_detection_latency_ms :=
        if inter_detection_ms < st.min_detection_latency_ms then inter_detection_ms
        else st.min_detection_latency_ms
      max_detection_latency_ms :=
        if inter_detection_ms > st.max_detection_latency_ms then inter_detection_ms
        else st.max_detection_latency_ms
      sum_detection_latencies_ms := st.sum_detection_latencies_ms + inter_detection_ms }
    let st :=
      if inter_detection_ms < 20 then
        { st with detections_under_20ms := add64 st.detections_under_20ms 1 }
      else if inter_detection_ms < 30 then
        { st with detections_20_30ms := add64 st.detections_20_30ms 1 }
      else if inter_detection_ms < 40 then
        { st with detections_30_40ms := add64 st.detections_30_40ms 1 }
      else if inter_detection_ms < 50 then
        { st with detections_40_50ms := add64 st.detections_40_50ms 1 }
      else
        { st with detections_over_50ms := add64 st.detections_over_50ms 1 }
    { st with last_detection_tsc := cur_tsc }

/-- The gated rule cascade of detect_attacks (the body of the
`if (window_att_pkts > 0 && attack_pps > 50000)` block), threading the
attack_detected flag exactly as the source: UDP flood assigns a High
alert, the later rules raise the running level to High; the multi-attack
rule fires only when no single-rule detection fired in this tick. -/
def rule_cascade (st1 : DetectState) (gate udpF synF icmpF httpF : Bool)
    (attack_types : Nat) : DetectState × Bool :=
  let p1 :=
    if gate && udpF then
      ({ st1 with udp_flood_detections := add64 st1.udp_flood_detections 1
                  alert_level := ALERT_HIGH
                  alert_reason := st1.alert_reason ++ [RuleTag.udpFlood] }, true)
    else (st1, false)
  let p2 :=
    if gate && synF then
      ({ p1.1 with syn_flood_detections := add64 p1.1.syn_flood_detections 1
                   alert_level := max p1.1.alert_level ALERT_HIGH
                   alert_reason := p1.1.alert_reason ++ [RuleTag.synFlood] }, true)
    else p1
  let p3 :=
    if gate && icmpF then
      ({ p2.1 with icmp_flood_detections := add64 p2.1.icmp_flood_detections 1
                   alert_level := max p2.1.alert_level ALERT_HIGH
                   alert_reason := p2.1.alert_reason ++ [RuleTag.icmpFlood] }, true)
    else p2
  let p4 :=
    if gate && httpF then
      ({ p3.1 with http_flood_detections := add64 p3.1.http_flood_detections 1
                   alert_level := max p3.1.alert_level ALERT_HIGH
                   alert_reason := p3.1.alert_reason ++ [RuleTag.httpFlood] }, true)
    else p3
  if gate && decide (attack_types ≥ 2) && !p4.2 then
    ({ p4.1 with total_flood_detections := add64 p4.1.total_flood_detections 1
                 alert_level := max p4.1.alert_level ALERT_HIGH
                 alert_reason := p4.1.alert_reason ++ [RuleTag.multiAttack] }, true)
  else p4

/-- detect_attacks: one invocation of the coordinator detection tick.
Takes and returns, besides the detection stats, the merged sketch and
the list of per-worker sketches.  Mirrors the source line by line: the
fast-interval guard; clearing the alert; the 0.1 s window-validity
guard; aggregation of the window arrays and the worker stats; the rate
computations; the gated rule cascade; detection-event recording;
the sketch merge; the 5 s window reset. -/
def detect_attacks (st : DetectState) (merged : Octosketch)
    (sketches : List Octosketch) (inp : CoordInput) (cur_tsc hz : Nat) :
    DetectState × Octosketch × List Octosketch :=
  let elapsed : ℚ := ((cur_tsc - st.last_fast_detection_tsc : Nat) : ℚ) / (hz : ℚ)
  if elapsed < 0.05 then (st, merged, sketches) else
  let st1 := { st with last_fast_detection_tsc := cur_tsc, alert_level := ALERT_NONE,
                       alert_reason := [] }
  -- window_sec reads window_start_tsc, which the update above left untouched
  let window_sec := windowSecQ st cur_tsc hz
  if window_sec < 0.1 then (st1, merged, sketches) else
  let window_att_pkts := inp.window_attack_pkts.sum
  let window_syn_pkts := (inp.worker_stats.map (·.syn_packets)).sum
  let window_udp_pkts := (inp.worker_stats.map (·.udp_packets)).sum
  let window_icmp_pkts := (inp.worker_stats.map (·.icmp_packets)).sum
  let window_http_reqs := (inp.worker_stats.map (·.http_requests)).sum
  let attack_pps := ratePps window_att_pkts window_sec
  let syn_pps := ratePps window_syn_pkts window_sec
  let udp_pps := ratePps window_udp_pkts window_sec
  let icmp_pps := ratePps window_icmp_pkts window_sec
  let http_pps := ratePps window_http_reqs window_sec
  -- rule cascade, gated on attack traffic being present and above 50k pps
  let attack_types : Nat :=
    (if udp_pps > 10000 then 1 else 0) + (if syn_pps > 10000 then 1 else 0)
      + (if icmp_pps > 5000 then 1 else 0)
  let p5 := rule_cascade st1
    (decide (window_att_pkts > 0 ∧ attack_pps > 50000))
    (decide (udp_pps > 20000)) (decide (syn_pps > 30000))
    (decide (icmp_pps > 10000)) (decide (http_pps > 15000)) attack_types
  let st2 := if p5.2 then record_detection p5.1 cur_tsc hz else p5.1
  let merged := if window_att_pkts > 0 then octosketch_merge merged sketches else merged
  if window_sec ≥ 5 then
    ({ st2 with window_start_tsc := cur_tsc }, merged, sketches.map octosketch_reset)
  else
    (st2, merged, sketches)

/-! ## Worker per-packet step (worker_thread, mira_ddos_detector.c)

One iteration of the inner packet loop, acting on the worker-local
counters, the per-worker sketch and the sampling counter.  The packet is
modelled by the header fields the code reads (the code performs no
length validation before reading them); ports are kept in network byte
order exactly as compared by the source.  The two timestamp captures
(g_start_tsc, first_attack_packet_tsc) call rte_rdtsc and are outside
this per-packet counter model. -/

/-- The worker-local counters accumulated for one burst. -/
structure WorkerCounters where
  total_pkts : Nat
  total_bytes : Nat
  baseline_pkts : Nat
  attack_pkts : Nat
  tcp_pkts : Nat
  udp_pkts : Nat
  icmp_pkts : Nat
  syn_pkts : Nat
  syn_ack_pkts : Nat
  http_reqs : Nat
  dns_queries : Nat
  baseline_bytes : Nat
  attack_bytes : Nat

/-- All-zero worker counters. -/
def zeroWorkerCounters : WorkerCounters :=
  { total_pkts := 0, total_bytes := 0, baseline_pkts := 0, attack_pkts := 0
    tcp_pkts := 0, udp_pkts := 0, icmp_pkts := 0, syn_pkts := 0
    syn_ack_pkts := 0, http_reqs := 0, dns_queries := 0
    baseline_bytes := 0, attack_bytes := 0 }

/-- Header fields of one received frame as read by the worker. -/
structure Packet where
  ether_type : Nat      -- host order, after rte_be_to_cpu_16
  pkt_len : Nat
  src_ip : Nat          -- host order, after rte_be_to_cpu_32
  proto : Nat
  tcp_flags : Nat
  tcp_dst_port_be : Nat -- network order
  udp_src_port_be : Nat -- network order
  udp_dst_port_be : Nat -- network order

/-- RTE_ETHER_TYPE_IPV4. -/
def RTE_ETHER_TYPE_IPV4 : Nat := 0x0800

/-- BASELINE_NETWORK (10.10.1.0). -/
def BASELINE_NETWORK : Nat := 0x0A0A0100

/-- ATTACK_NETWORK (10.10.2.0). -/
def ATTACK_NETWORK : Nat := 0x0A0A0200

/-- NETWORK_MASK (/24). -/
def NETWORK_MASK : Nat := 0xFFFFFF00

/-- worker_thread, body of the per-packet loop: drop non-IPv4 frames
without touching any counter; otherwise count totals, classify against
the baseline/attack networks, dispatch on the transport protocol, and
perform the sampled attack-only sketch update. -/
def worker_process_packet (c : WorkerCounters) (sk : Octosketch)
    (sample_counter : Nat) (p : Packet) : WorkerCounters × Octosketch × Nat :=
  if p.ether_type ≠ RTE_ETHER_TYPE_IPV4 then
    (c, sk, sample_counter)   -- rte_pktmbuf_free(m); continue
  else
    let network := p.src_ip &&& NETWORK_MASK
    let is_baseline := network = BASELINE_NETWORK
    let is_attack := network = ATTACK_NETWORK
    let c := { c with
      total_pkts := add64 c.total_pkts 1
      total_bytes := add64 c.total_bytes p.pkt_len
      baseline_pkts := add64 c.baseline_pkts (if is_baseline then 1 else 0)
      baseline_bytes := add64 c.baseline_bytes (if is_baseline then p.pkt_len else 0)
      attack_pkts := add64 c.attack_pkts (if is_attack then 1 else 0)
      attack_bytes := add64 c.attack_bytes (if is_attack then p.pkt_len else 0) }
    let c :=
      if p.proto = 6 then        -- IPPROTO_TCP
        let c := { c with tcp_pkts := add64 c.tcp_pkts 1 }
        let c :=
          if p.tcp_flags &&& 0x02 ≠ 0 then    -- RTE_TCP_SYN_FLAG
            let sa : Nat := if p.tcp_flags &&& 0x10 ≠ 0 then 1 else 0  -- RTE_TCP_ACK_FLAG
            { c with syn_pkts := add64 c.syn_pkts 1
                     syn_ack_pkts := add64 c.syn_ack_pkts sa }
          else c
        let hr : Nat := if p.tcp_dst_port_be = 0x5000 then 1 else 0   -- be16(80)
        { c with http_reqs := add64 c.http_reqs hr }
      else if p.proto = 17 then  -- IPPROTO_UDP
        let dq : Nat := if p.udp_dst_port_be = 0x3500 ∨ p.udp_src_port_be = 0x3500 then 1 else 0
        { c with udp_pkts := add64 c.udp_pkts 1
                 dns_queries := add64 c.dns_queries dq }
      else if p.proto = 1 then   -- IPPROTO_ICMP
        { c with icmp_pkts := add64 c.icmp_pkts 1 }
      else c
    if is_attack then
      let sample_counter := add64 sample_counter 1
      if sample_counter % SKETCH_SAMPLE_RATE = 0 then
        (c, octosketch_update_bytes
              (octosketch_update_ip sk p.src_ip SKETCH_SAMPLE_RATE)
              (p.pkt_len * SKETCH_SAMPLE_RATE),
         sample_counter)
      else (c, sk, sample_counter)
    else (c, sk, sample_counter)

/-! ## Replayer pacer (send_loop_fast, dpdk_pcap_sender_v2.c)

The rate-limiting block executed once per burst.  TARGET_GBPS = 12.0,
so target_bytes_per_sec = (uint64_t)(12.0e9 / 8.0) = 1500000000.  The
double arithmetic is modelled with exact rationals; the (uint64_t)
casts of non-negative doubles are floors. -/

/-- target_bytes_per_sec for TARGET_GBPS = 12.0. -/
def target_bytes_per_sec : Nat := 1500000000

/-- Result of one pacer tick: the new bytes-in-window accumulator, the
new window start, and the duration actually slept, in microseconds. -/
structure PacerResult where
  bytes_in_window : Nat
  window_start_tsc : Nat
  slept_us : Nat

/-- The elapsed window fraction in seconds (double division). -/
def pacer_elapsed_sec (window_start_tsc cur_tsc hz : Nat) : ℚ :=
  ((cur_tsc - window_start_tsc : Nat) : ℚ) / (hz : ℚ)

/-- sleep_ns = (uint64_t)((bytes_over * 8.0 * 1e9) / (TARGET_GBPS * 1e9))
where bytes_over = bytes_sent_in_window - target_bytes_per_sec * elapsed. -/
def pacer_sleep_ns (bytes_sent_in_window window_start_tsc cur_tsc hz : Nat) : Nat :=
  let elapsed_sec := pacer_elapsed_sec window_start_tsc cur_tsc hz
  let bytes_expected : ℚ := (target_bytes_per_sec : ℚ) * elapsed_sec
  let bytes_over : ℚ := (bytes_sent_in_window : ℚ) - bytes_expected
  ⌊bytes_over * 8 * 1000000000 / (12 * 1000000000 : ℚ)⌋₊

/-- The rate-limiting block of send_loop_fast: reset the window after
1 s; otherwise, when the bytes sent so far exceed the byte budget of the
elapsed fraction, compute the overshoot sleep in nanoseconds and sleep
sleep_ns/1000 microseconds, but only when 0 < sleep_ns < 100000. -/
def pacer_tick (bytes_sent_in_window window_start_tsc cur_tsc hz : Nat) : PacerResult :=
  let elapsed_sec := pacer_elapsed_sec window_start_tsc cur_tsc hz
  if elapsed_sec ≥ 1 then
    { bytes_in_window := 0, window_start_tsc := cur_tsc, slept_us := 0 }
  else if bytes_sent_in_window > ⌊(target_bytes_per_sec : ℚ) * elapsed_sec⌋₊ then
    let sleep_ns := pacer_sleep_ns bytes_sent_in_window window_start_tsc cur_tsc hz
    if sleep_ns > 0 ∧ sleep_ns < 100000 then
      { bytes_in_window := bytes_sent_in_window, window_start_tsc := window_start_tsc
        slept_us := sleep_ns / 1000 }
    else
      { bytes_in_window := bytes_sent_in_window, window_start_tsc := window_start_tsc
        slept_us := 0 }
  else
    { bytes_in_window := bytes_sent_in_window, window_start_tsc := window_start_tsc
      slept_us := 0 }

/-! ## TX burst buffer accounting (send_loop_fast / send_loop_adaptive)

One loop iteration allocates BURST_SIZE mbufs in bulk, transmits, and
frees the unaccepted tail pkts[nb_tx .. BURST_SIZE-1].  The pool is
modelled by its free-buffer count; a buffer accepted by tx_burst is
owned by the NIC and returned to the pool on transmit completion (the
mock NIC of the spec scenario).  tx_burst never accepts more packets
than it was handed, which the model encodes by clamping. -/

/-- BURST_SIZE of dpdk_pcap_sender_v2.c. -/
def BURST_SIZE : Nat := 256

/-- Pool free count across one send-loop iteration in which tx_burst
accepts `accept` of the BURST_SIZE allocated buffers. -/
def tx_iteration (free_count accept : Nat) : Nat :=
  if free_count < BURST_SIZE then
    free_count                       -- rte_pktmbuf_alloc_bulk fails; back off
  else
    let after_alloc := free_count - BURST_SIZE
    let nb_tx := min accept BURST_SIZE
    let caller_freed := ((List.range BURST_SIZE).drop nb_tx).length
    let nic_freed := nb_tx
    after_alloc + caller_freed + nic_freed

/-- A run of send-loop iterations with the given per-burst acceptance. -/
def tx_run (free_count : Nat) (accepts : List Nat) : Nat :=
  accepts.foldl tx_iteration free_count

/-! ## Phase scheduler (send_loop_adaptive, dpdk_pcap_sender_v2.c) -/

/-- One phase of the adaptive schedule. -/
structure TrafficPhase where
  duration_sec : Nat
  http_pct : ℚ
  dns_pct : ℚ
  ssh_pct : ℚ
  udp_pct : ℚ

/-- The adaptive-mode configuration fields used by the phase check. -/
structure AdaptiveConfig where
  num_phases : Nat
  phases : Nat → TrafficPhase
  loop_mode : Bool
  target_gbps : ℚ
  jitter_pct : ℚ
  duration_sec : Nat

/-- The phase-advance check at the top of the send_loop_adaptive body:
when the current phase duration has elapsed, move to the next phase
modulo num_phases and restart the phase clock.  Returns
(current_phase, phase_start_tsc, phase_duration_tsc). -/
def phase_check (cfg : AdaptiveConfig)
    (current_phase phase_start_tsc phase_duration_tsc cur_tsc hz : Nat) :
    Nat × Nat × Nat :=
  if cfg.num_phases > 0 ∧ cur_tsc - phase_start_tsc ≥ phase_duration_tsc then
    let next := (current_phase + 1) % cfg.num_phases
    (next, cur_tsc, (cfg.phases next).duration_sec * hz)
  else
    (current_phase, phase_start_tsc, phase_duration_tsc)

/-! ## QUIC ACK-frame scanner (quic_optimistic_ack_detector.c)

parse_quic_for_acks walks the frame bytes after a simplified header
skip.  The payload is a byte list; payload[i] is List.getD i 0 (the C
code indexes within [0, len) on every read the loop performs).  The
loop is embedded with a fuel argument used only as a structural
recursion bound; the scanner itself stops when offset reaches len - 1,
and theorems below show the fuel parse_quic_for_acks supplies is never
the reason the loop stops.  The returned triple carries the ACK count,
the last extracted largest-acked value, and the number of loop
iterations executed (instrumentation for the termination bound). -/

/-- One scan step from a given offset: the new (ack_count, largest_ack,
offset) after inspecting the frame byte at offset.  ACK (0x02) and
ACK_ECN (0x03) frames bump the count, optionally decode a varint
largest-acked, and skip 20 bytes; PADDING (0x00) skips 1; any other
frame type skips 10. -/
def ack_scan_step (payload : List Nat) (ack_count largest_ack offset : Nat) :
    Nat × Nat × Nat :=
  let len := payload.length
  let frame_type := payload.getD offset 0
  if frame_type = 0x02 ∨ frame_type = 0x03 then
    let ack_count := ack_count + 1
    let largest_ack :=
      if offset + 8 < len then
        let first := payload.getD (offset + 1) 0
        if first &&& 0xC0 = 0x00 then first
        else if first &&& 0xC0 = 0x40 then
          ((first &&& 0x3F) <<< 8) ||| payload.getD (offset + 2) 0
        else if first &&& 0xC0 = 0x80 then
          ((first &&& 0x3F) <<< 24) ||| (payload.getD (offset + 2) 0 <<< 16)
            ||| (payload.getD (offset + 3) 0 <<< 8) ||| payload.getD (offset + 4) 0
        else largest_ack
      else largest_ack
    (ack_count, largest_ack, offset + 20)
  else if frame_type = 0x00 then
    (ack_count, largest_ack, offset + 1)
  else
    (ack_count, largest_ack, offset + 10)

/-- The frame-scan loop: while offset < len - 1, take one step (the
trailing `if (offset >= len) break` of the source re-checks what the
loop condition checks and is subsumed by it).  Fuel only bounds the
structural recursion. -/
def ack_scan_loop (payload : List Nat) :
    Nat → Nat → Nat → Nat → Nat × Nat × Nat
  | 0, ack_count, largest_ack, _ => (ack_count, largest_ack, 0)
  | fuel + 1, ack_count, largest_ack, offset =>
      if offset < payload.length - 1 then
        let r := ack_scan_step payload ack_count largest_ack offset
        let rest := ack_scan_loop payload fuel r.1 r.2.1 r.2.2
        (rest.1, rest.2.1, rest.2.2 + 1)
      else (ack_count, largest_ack, 0)

/-- parse_quic_for_acks: zero the outputs; reject payloads under 2
bytes; skip the (simplified) long- or short-header prefix; then scan
the frame stream.  Returns (ack_count, largest_ack, loop iterations).
The early returns inside the long-header skip return with zeroed
outputs, as in the source. -/
def parse_quic_for_acks (payload : List Nat) : Nat × Nat × Nat :=
  let len := payload.length
  if len < 2 then (0, 0, 0)
  else
    let first_byte := payload.getD 0 0
    if first_byte &&& 0x80 ≠ 0 then      -- QUIC_LONG_HEADER_BIT
      if len < 7 then (0, 0, 0)
      else
        -- first byte (1) + version (4) + DCID len (1)
        let offset := 6
        if offset ≥ len then (0, 0, 0)
        else
          let dcid_len := payload.getD 5 0
          let offset := offset + dcid_len
          if offset ≥ len then (0, 0, 0)
          else
            let scid_len := payload.getD offset 0
            let offset := offset + 1 + scid_len
            let offset := offset + 2      -- simplified token/length skip
            ack_scan_loop payload len 0 0 offset
    else
      -- short header: 1 + assumed 8-byte DCID + 4-byte packet number
      ack_scan_loop payload len 0 0 (1 + 8 + 4)

/-! # Theorems -/

/-! ## Sketch lemmas -/

lemma updateRows_apply (f : Nat → Nat → Nat) (seeds : Nat → Nat) (ip inc : Nat) :
    ∀ m i j, updateRows f seeds ip inc m i j =
      if i < m ∧ j = octosketch_hash ip (seeds i) then add32 (f i j) inc
      else f i j := by
  intro m
  induction m with
  | zero => intro i j; simp [updateRows]
  | succ m ih =>
      intro i j
      show bumpCell (updateRows f seeds ip inc m) m (octosketch_hash ip (seeds m)) inc i j = _
      rw [bumpCell]
      rw [ih i j]
      by_cases hi : i = m
      · subst hi
        by_cases hj : j = octosketch_hash ip (seeds i)
        · rw [if_pos ⟨rfl, hj⟩, if_neg (by omega : ¬ (i < i ∧ j = octosketch_hash ip (seeds i))),
              if_pos ⟨Nat.lt_succ_self i, hj⟩]
        · rw [if_neg (fun h => hj h.2), if_neg (fun h => hj h.2), if_neg (fun h => hj h.2)]
      · rw [if_neg (fun h => hi h.1)]
        by_cases hj : j = octosketch_hash ip (seeds i)
        · by_cases hlt : i < m
          · rw [if_pos ⟨hlt, hj⟩, if_pos ⟨by omega, hj⟩]
          · rw [if_neg (fun h => hlt h.1), if_neg (by omega : ¬ (i < m + 1 ∧ j = octosketch_hash ip (seeds i)))]
        · rw [if_neg (fun h => hj h.2), if_neg (fun h => hj h.2)]

@[simp] lemma octosketch_update_ip_seeds (s : Octosketch) (ip inc : Nat) :
    (octosketch_update_ip s ip inc).seeds = s.seeds := rfl

@[simp] lemma updateN_seeds (s : Octosketch) (k w : Nat) :
    ∀ n, (updateN s k w n).seeds = s.seeds := by
  intro n
  induction n with
  | zero => rfl
  | succ n ih => show (octosketch_update_ip (updateN s k w n) k w).seeds = _; rw [octosketch_update_ip_seeds, ih]

lemma updateN_counters (s : Octosketch) (k w : Nat) :
    ∀ n i j, s.counters i j < 4294967296 →
      (updateN s k w n).counters i j =
        if i < SKETCH_ROWS ∧ j = octosketch_hash k (s.seeds i) then (s.counters i j + n * w) % 4294967296
        else s.counters i j := by
  intro n
  induction n with
  | zero =>
      intro i j hc
      show s.counters i j = _
      split
      · rw [Nat.zero_mul, Nat.add_zero, Nat.mod_eq_of_lt hc]
      · rfl
  | succ n ih =>
      intro i j hc
      show (octosketch_update_ip (updateN s k w n) k w).counters i j = _
      show updateRows (updateN s k w n).counters (updateN s k w n).seeds k w SKETCH_ROWS i j = _
      rw [updateRows_apply, updateN_seeds, ih i j hc]
      split
      · rw [add32, Nat.mod_add_mod]
        congr 1
        ring
      · rfl

lemma query_eq_of_cells (s : Octosketch) (k v : Nat)
    (hv : v < 4294967296)
    (h : ∀ i, i < SKETCH_ROWS → s.counters i (octosketch_hash k (s.seeds i)) = v) :
    octosketch_query_ip s k = v := by
  have h0 := h 0 (by norm_num [SKETCH_ROWS])
  have h1 := h 1 (by norm_num [SKETCH_ROWS])
  have h2 := h 2 (by norm_num [SKETCH_ROWS])
  have h3 := h 3 (by norm_num [SKETCH_ROWS])
  have h4 := h 4 (by norm_num [SKETCH_ROWS])
  have h5 := h 5 (by norm_num [SKETCH_ROWS])
  have h6 := h 6 (by norm_num [SKETCH_ROWS])
  have h7 := h 7 (by norm_num [SKETCH_ROWS])
  show queryRows s k 8 = v
  simp only [queryRows, h0, h1, h2, h3, h4, h5, h6, h7]
  split_ifs <;> omega

lemma mergeFold_cell :
    ∀ (srcs : List Octosketch) (acc : Octosketch) (i j : Nat),
      i < SKETCH_ROWS → j < SKETCH_COLS → acc.counters i j < 4294967296 →
      (srcs.foldl mergeOne acc).counters i j =
        (acc.counters i j + (srcs.map (fun s => s.counters i j)).sum) % 4294967296 := by
  intro srcs
  induction srcs with
  | nil =>
      intro acc i j _ _ hc
      show acc.counters i j = _
      rw [List.map_nil, List.sum_nil, Nat.add_zero, Nat.mod_eq_of_lt hc]
  | cons x xs ih =>
      intro acc i j hi hj hc
      show (xs.foldl mergeOne (mergeOne acc x)).counters i j = _
      have hm : (mergeOne acc x).counters i j = (acc.counters i j + x.counters i j) % 4294967296 := by
        show (if i < SKETCH_ROWS ∧ j < SKETCH_COLS then add32 (acc.counters i j) (x.counters i j)
              else acc.counters i j) = _
        rw [if_pos ⟨hi, hj⟩]; rfl
      rw [ih (mergeOne acc x) i j hi hj (by rw [hm]; exact Nat.mod_lt _ (by norm_num))]
      rw [hm, List.map_cons, List.sum_cons, Nat.mod_add_mod, Nat.add_assoc]

lemma mergeFold_seeds :
    ∀ (srcs : List Octosketch) (acc : Octosketch),
      (srcs.foldl mergeOne acc).seeds = acc.seeds := by
  intro srcs
  induction srcs with
  | nil => intro acc; rfl
  | cons x xs ih => intro acc; show (xs.foldl mergeOne (mergeOne acc x)).seeds = _; rw [ih]; rfl

lemma octosketch_merge_seeds (dst : Octosketch) (srcs : List Octosketch) :
    (octosketch_merge dst srcs).seeds = dst.seeds := by
  show (srcs.foldl mergeOne _).seeds = _
  rw [mergeFold_seeds]

lemma octosketch_merge_cell (dst : Octosketch) (srcs : List Octosketch) (i j : Nat)
    (hi : i < SKETCH_ROWS) (hj : j < SKETCH_COLS) :
    (octosketch_merge dst srcs).counters i j =
      ((srcs.map (fun s => s.counters i j)).sum) % 4294967296 := by
  show (srcs.foldl mergeOne _).counters i j = _
  rw [mergeFold_cell _ _ i j hi hj (by show (0:Nat) < 4294967296; norm_num)]
  show ((0:Nat) + _) % 4294967296 = _
  rw [Nat.zero_add]

lemma mergeFold_components :
    ∀ (srcs : List Octosketch) (a b : Octosketch),
      a.counters = b.counters → a.ip_counts = b.ip_counts →
      a.total_updates = b.total_updates → a.total_bytes = b.total_bytes →
      (srcs.foldl mergeOne a).counters = (srcs.foldl mergeOne b).counters
      ∧ (srcs.foldl mergeOne a).ip_counts = (srcs.foldl mergeOne b).ip_counts
      ∧ (srcs.foldl mergeOne a).total_updates = (srcs.foldl mergeOne b).total_updates
      ∧ (srcs.foldl mergeOne a).total_bytes = (srcs.foldl mergeOne b).total_bytes := by
  intro srcs
  induction srcs with
  | nil => intro a b h1 h2 h3 h4; exact ⟨h1, h2, h3, h4⟩
  | cons x xs ih =>
      intro a b h1 h2 h3 h4
      simp only [List.foldl_cons]
      apply ih
      · show (fun i j => if i < SKETCH_ROWS ∧ j < SKETCH_COLS
                then add32 (a.counters i j) (x.counters i j) else a.counters i j) = _
        rw [h1]; rfl
      · show (fun j => if j < 65536
                then add32 (a.ip_counts j) (x.ip_counts j) else a.ip_counts j) = _
        rw [h2]; rfl
      · show add64 a.total_updates x.total_updates = add64 b.total_updates x.total_updates
        rw [h3]
      · show add64 a.total_bytes x.total_bytes = add64 b.total_bytes x.total_bytes
        rw [h4]

/-- C3 counterexample.  The claim quantifies over every natural number n,
but the sketch cells are uint32_t: after 2^32 updates of weight 1 the
cells have wrapped to 0, so query returns 0, not 2^32. -/
theorem C3_counterexample_uint32_wrap :
    octosketch_query_ip (updateN octosketch_init 0xAABBCCDD 1 4294967296) 0xAABBCCDD = 0
    ∧ (4294967296 : Nat) ≠ 0 := by
  constructor
  · apply query_eq_of_cells _ _ 0 (by norm_num)
    intro i hi
    rw [updateN_seeds]
    rw [updateN_counters octosketch_init _ _ _ i _ (by show (0:Nat) < 4294967296; norm_num)]
    rw [if_pos ⟨hi, rfl⟩]
    show ((0:Nat) + 4294967296 * 1) % 4294967296 = 0
    norm_num
  · norm_num

/-- C3 (amended).  After resetting a sketch and performing update(k, 1)
exactly n times with n below 2^32 (the counter width), query(k) returns
exactly n: for a single key, hash collisions cannot raise the
conservative minimum-over-rows query above the true count. -/
theorem C3_single_key_query_exact (s : Octosketch) (k n : Nat)
    (hn : n < 4294967296) :
    octosketch_query_ip (updateN (octosketch_reset s) k 1 n) k = n := by
  apply query_eq_of_cells _ _ n hn
  intro i hi
  rw [updateN_seeds]
  rw [updateN_counters (octosketch_reset s) _ _ _ i _ (by show (0:Nat) < 4294967296; norm_num)]
  rw [if_pos ⟨hi, rfl⟩]
  show ((0:Nat) + n * 1) % 4294967296 = n
  rw [Nat.mul_one, Nat.zero_add, Nat.mod_eq_of_lt hn]

/-- Witness for C3_single_key_query_exact at n = 3, k = 77. -/
theorem C3_single_key_query_exact_witness :
    (3 : Nat) < 4294967296 ∧
    octosketch_query_ip (updateN (octosketch_reset octosketch_init) 77 1 3) 77 = 3 :=
  ⟨by norm_num, C3_single_key_query_exact octosketch_init 77 3 (by norm_num)⟩

/-- C2 counterexample.  The merged estimate of a key does not in general
equal the sum of the per-worker estimates: with worker 0 holding the keys
13186, 2333, 5436, 639 (which collide with 0xAABBCCDD in rows 0-3 only)
and worker 1 holding 170, 1642, 1941, 3320 (rows 4-7 only), each worker's
own query of 0xAABBCCDD is 0 but the merged query is 1. -/
theorem C2_counterexample_query_not_additive :
    octosketch_query_ip
      (octosketch_merge octosketch_init
        [[13186, 2333, 5436, 639].foldl (fun s k => octosketch_update_ip s k 1) octosketch_init,
         [170, 1642, 1941, 3320].foldl (fun s k => octosketch_update_ip s k 1) octosketch_init])
      0xAABBCCDD = 1
    ∧ octosketch_query_ip
        ([13186, 2333, 5436, 639].foldl (fun s k => octosketch_update_ip s k 1) octosketch_init)
        0xAABBCCDD = 0
    ∧ octosketch_query_ip
        ([170, 1642, 1941, 3320].foldl (fun s k => octosketch_update_ip s k 1) octosketch_init)
        0xAABBCCDD = 0
    ∧ (1 : Nat) ≠ 0 + 0 := by
  refine ⟨by decide, by decide, by decide, by norm_num⟩

/-- C2 (amended).  Merging produces the element-wise (uint32) sum of the
source counter matrices; and in the concrete scenario of the spec - both
workers updating only 0xAABBCCDD, 1000 respectively 500 times - the
merged query returns exactly 1500 (merged estimates can exceed, but here
equal, the sum of per-worker estimates). -/
theorem C2_merge_elementwise_sum_and_scenario :
    (∀ (dst : Octosketch) (srcs : List Octosketch) (i j : Nat),
        i < SKETCH_ROWS → j < SKETCH_COLS →
        (octosketch_merge dst srcs).counters i j =
          ((srcs.map (fun s => s.counters i j)).sum) % 4294967296)
    ∧ octosketch_query_ip
        (octosketch_merge octosketch_init
          [updateN octosketch_init 0xAABBCCDD 1 1000,
           updateN octosketch_init 0xAABBCCDD 1 500]) 0xAABBCCDD = 1500 := by
  constructor
  · exact fun dst srcs i j hi hj => octosketch_merge_cell dst srcs i j hi hj
  · apply query_eq_of_cells _ _ 1500 (by norm_num)
    intro i hi
    rw [octosketch_merge_seeds]
    have hcol : octosketch_hash 0xAABBCCDD (octosketch_init.seeds i) < SKETCH_COLS := by
      show rte_jhash_1word 0xAABBCCDD (octosketch_init.seeds i) &&& SKETCH_MASK < SKETCH_COLS
      exact lt_of_le_of_lt Nat.and_le_right (by norm_num [SKETCH_MASK, SKETCH_COLS])
    have hw0 : (updateN octosketch_init 0xAABBCCDD 1 1000).counters i
        (octosketch_hash 0xAABBCCDD (octosketch_init.seeds i)) = 1000 := by
      rw [updateN_counters octosketch_init _ _ _ i _ (by show (0:Nat) < 4294967296; norm_num)]
      rw [if_pos ⟨hi, rfl⟩]
      show ((0:Nat) + 1000 * 1) % 4294967296 = 1000
      norm_num
    have hw1 : (updateN octosketch_init 0xAABBCCDD 1 500).counters i
        (octosketch_hash 0xAABBCCDD (octosketch_init.seeds i)) = 500 := by
      rw [updateN_counters octosketch_init _ _ _ i _ (by show (0:Nat) < 4294967296; norm_num)]
      rw [if_pos ⟨hi, rfl⟩]
      show ((0:Nat) + 500 * 1) % 4294967296 = 500
      norm_num
    rw [octosketch_merge_cell _ _ i _ hi hcol]
    rw [List.map_cons, List.map_cons, List.map_nil, List.sum_cons, List.sum_cons,
        List.sum_nil, hw0, hw1]
    norm_num

/-- Witness for the element-wise part of
C2_merge_elementwise_sum_and_scenario at row 0, column 0. -/
theorem C2_merge_elementwise_sum_witness :
    (0 : Nat) < SKETCH_ROWS ∧ (0 : Nat) < SKETCH_COLS ∧
    (octosketch_merge octosketch_init [octosketch_init]).counters 0 0 =
      (([octosketch_init].map (fun s => s.counters 0 0)).sum) % 4294967296 :=
  ⟨by norm_num [SKETCH_ROWS], by norm_num [SKETCH_COLS],
   C2_merge_elementwise_sum_and_scenario.1 octosketch_init [octosketch_init] 0 0
     (by norm_num [SKETCH_ROWS]) (by norm_num [SKETCH_COLS])⟩

/-- C10 (confirmed).  octosketch_merge zeroes the destination counter
matrix, IP histogram and accumulators before summing, so those four
components of the result do not depend on the destination at all; in
particular merging the same source list into the result again gives the
very same components (merge is idempotent in the destination). -/
theorem C10_merge_ignores_destination :
    (∀ (d1 d2 : Octosketch) (srcs : List Octosketch),
       (octosketch_merge d1 srcs).counters = (octosketch_merge d2 srcs).counters
       ∧ (octosketch_merge d1 srcs).ip_counts = (octosketch_merge d2 srcs).ip_counts
       ∧ (octosketch_merge d1 srcs).total_updates = (octosketch_merge d2 srcs).total_updates
       ∧ (octosketch_merge d1 srcs).total_bytes = (octosketch_merge d2 srcs).total_bytes)
    ∧ (∀ (d : Octosketch) (srcs : List Octosketch),
       (octosketch_merge (octosketch_merge d srcs) srcs).counters = (octosketch_merge d srcs).counters
       ∧ (octosketch_merge (octosketch_merge d srcs) srcs).ip_counts = (octosketch_merge d srcs).ip_counts
       ∧ (octosketch_merge (octosketch_merge d srcs) srcs).total_updates = (octosketch_merge d srcs).total_updates
       ∧ (octosketch_merge (octosketch_merge d srcs) srcs).total_bytes = (octosketch_merge d srcs).total_bytes) := by
  have key : ∀ (d1 d2 : Octosketch) (srcs : List Octosketch),
      (octosketch_merge d1 srcs).counters = (octosketch_merge d2 srcs).counters
      ∧ (octosketch_merge d1 srcs).ip_counts = (octosketch_merge d2 srcs).ip_counts
      ∧ (octosketch_merge d1 srcs).total_updates = (octosketch_merge d2 srcs).total_updates
      ∧ (octosketch_merge d1 srcs).total_bytes = (octosketch_merge d2 srcs).total_bytes := by
    intro d1 d2 srcs
    apply mergeFold_components srcs <;> rfl
  exact ⟨key, fun d srcs => key (octosketch_merge d srcs) d srcs⟩

/-! ## TX buffer accounting (C8) -/

/-- C8 (confirmed).  In send_loop_fast and send_loop_adaptive every
bulk-allocated buffer that tx_burst does not accept is freed by the
caller (the tail loop over pkts[nb_tx .. BURST_SIZE-1]) and every
accepted buffer is returned to the pool by the NIC on completion, so
after any number of bursts with any pattern of partial acceptance the
pool free count equals its starting value. -/
theorem C8_no_buffer_leak (free_count : Nat) (accepts : List Nat) :
    tx_run free_count accepts = free_count := by
  induction accepts generalizing free_count with
  | nil => rfl
  | cons a as ih =>
      show tx_run (tx_iteration free_count a) as = free_count
      rw [ih]
      unfold tx_iteration
      split
      · rfl
      · rename_i h
        simp only [List.length_drop, List.length_range]
        have hm : min a BURST_SIZE ≤ BURST_SIZE := Nat.min_le_right a BURST_SIZE
        omega

/-! ## Phase scheduler (C9) -/

/-- C9 counterexample.  With loop_mode off, three phases, the last phase
current and its duration elapsed, the scheduler still returns to phase 0:
the sequence restarts regardless of loop_mode. -/
theorem C9_counterexample_loops_with_loop_mode_off :
    (phase_check
      { num_phases := 3
        phases := fun _ => { duration_sec := 30, http_pct := 1, dns_pct := 0,
                             ssh_pct := 0, udp_pct := 0 }
        loop_mode := false, target_gbps := 12, jitter_pct := 0, duration_sec := 0 }
      2 0 30000 40000 1000).1 = 0 := by
  decide

/-- C9 (amended).  When the current phase duration elapses the replayer
advances to the next phase modulo num_phases: after the final phase it
returns to the first phase unconditionally.  loop_mode has no effect on
phase advancement. -/
theorem C9_phase_advance_ignores_loop_mode (cfg : AdaptiveConfig) (b : Bool)
    (current_phase phase_start phase_duration cur_tsc hz : Nat)
    (hrun : cfg.num_phases > 0 ∧ cur_tsc - phase_start ≥ phase_duration)
    (hlast : current_phase + 1 = cfg.num_phases) :
    phase_check { cfg with loop_mode := b }
        current_phase phase_start phase_duration cur_tsc hz
      = phase_check cfg current_phase phase_start phase_duration cur_tsc hz
    ∧ (phase_check cfg current_phase phase_start phase_duration cur_tsc hz).1 = 0 := by
  constructor
  · rfl
  · unfold phase_check
    rw [if_pos hrun]
    show (current_phase + 1) % cfg.num_phases = 0
    rw [hlast, Nat.mod_self]

/-- Witness for C9_phase_advance_ignores_loop_mode: three phases, last
phase current, duration elapsed. -/
theorem C9_phase_advance_witness :
    (((3:Nat) > 0 ∧ (40000:Nat) - 0 ≥ 30000) ∧ (2:Nat) + 1 = 3)
    ∧ (phase_check
        { num_phases := 3
          phases := fun _ => { duration_sec := 30, http_pct := 1, dns_pct := 0,
                               ssh_pct := 0, udp_pct := 0 }
          loop_mode := true, target_gbps := 12, jitter_pct := 0, duration_sec := 0 }
        2 0 30000 40000 1000).1 = 0 :=
  ⟨⟨⟨by norm_num, by norm_num⟩, by norm_num⟩,
   (C9_phase_advance_ignores_loop_mode
      { num_phases := 3
        phases := fun _ => { duration_sec := 30, http_pct := 1, dns_pct := 0,
                             ssh_pct := 0, udp_pct := 0 }
        loop_mode := true, target_gbps := 12, jitter_pct := 0, duration_sec := 0 }
      true 2 0 30000 40000 1000 ⟨by norm_num, by norm_num⟩ (by norm_num)).2⟩

/-! ## Worker parse-failure path (C5) -/

/-- C5 counterexample.  A non-IPv4 frame (here ether_type 0x0806, ARP)
is dropped without incrementing ANY counter: total_packets does not
count it, contrary to the claim that total_packets does. -/
theorem C5_counterexample_total_packets_not_counted :
    (worker_process_packet zeroWorkerCounters octosketch_init 0
      { ether_type := 0x0806, pkt_len := 60, src_ip := 0x0A0A0105, proto := 6,
        tcp_flags := 0x02, tcp_dst_port_be := 0x5000,
        udp_src_port_be := 0, udp_dst_port_be := 0 }).1.total_pkts = 0
    ∧ ¬ (worker_process_packet zeroWorkerCounters octosketch_init 0
      { ether_type := 0x0806, pkt_len := 60, src_ip := 0x0A0A0105, proto := 6,
        tcp_flags := 0x02, tcp_dst_port_be := 0x5000,
        udp_src_port_be := 0, udp_dst_port_be := 0 }).1.total_pkts
        = add64 zeroWorkerCounters.total_pkts 1 := by
  constructor
  · rfl
  · intro h
    simp only [worker_process_packet] at h
    revert h
    decide

/-- C5 (amended).  A frame whose EtherType is not IPv4 is dropped with
no counter change at all - including total_packets - and no sketch or
sampling-counter change; the worker performs no frame-length validation,
so there is no separate truncated-frame path. -/
theorem C5_non_ipv4_changes_nothing (c : WorkerCounters) (sk : Octosketch)
    (sample_counter : Nat) (p : Packet) (h : p.ether_type ≠ RTE_ETHER_TYPE_IPV4) :
    worker_process_packet c sk sample_counter p = (c, sk, sample_counter) := by
  unfold worker_process_packet
  rw [if_pos h]

/-- Witness for C5_non_ipv4_changes_nothing at a concrete ARP frame. -/
theorem C5_non_ipv4_changes_nothing_witness :
    (0x0806 : Nat) ≠ RTE_ETHER_TYPE_IPV4
    ∧ worker_process_packet zeroWorkerCounters octosketch_init 7
        { ether_type := 0x0806, pkt_len := 60, src_ip := 0x0A0A0105, proto := 6,
          tcp_flags := 0x02, tcp_dst_port_be := 0x5000,
          udp_src_port_be := 0, udp_dst_port_be := 0 }
        = (zeroWorkerCounters, octosketch_init, 7) :=
  ⟨by norm_num [RTE_ETHER_TYPE_IPV4],
   C5_non_ipv4_changes_nothing zeroWorkerCounters octosketch_init 7 _
     (by norm_num [RTE_ETHER_TYPE_IPV4])⟩

/-! ## Pacer (C6) -/

/-- C6 counterexample.  With a 400 MB overshoot at elapsed 0.1 s the
computed sleep is 166666666 ns, at least 100 us, and the pacer performs
NO sleep at all instead of sleeping a clamped 100 us. -/
theorem C6_counterexample_no_clamped_sleep :
    pacer_elapsed_sec 0 100000000 1000000000 < 1
    ∧ 400000000 > ⌊(target_bytes_per_sec : ℚ) * pacer_elapsed_sec 0 100000000 1000000000⌋₊
    ∧ 100000 ≤ pacer_sleep_ns 400000000 0 100000000 1000000000
    ∧ (pacer_tick 400000000 0 100000000 1000000000).slept_us = 0
    ∧ (pacer_tick 400000000 0 100000000 1000000000).slept_us ≠ 100 := by
  have he : pacer_elapsed_sec 0 100000000 1000000000 = 1/10 := by
    unfold pacer_elapsed_sec; norm_num
  have hfl : ⌊(target_bytes_per_sec : ℚ) * pacer_elapsed_sec 0 100000000 1000000000⌋₊
      = 150000000 := by
    rw [he]; norm_num [target_bytes_per_sec]
  have hs : pacer_sleep_ns 400000000 0 100000000 1000000000 = 166666666 := by
    unfold pacer_sleep_ns
    rw [he]
    rw [Nat.floor_eq_iff (by norm_num [target_bytes_per_sec])]
    norm_num [target_bytes_per_sec]
  have ht : (pacer_tick 400000000 0 100000000 1000000000).slept_us = 0 := by
    simp only [pacer_tick]
    rw [if_neg (by rw [he]; norm_num), if_pos (by rw [hfl]; norm_num),
        if_neg (by rw [hs]; norm_num)]
  refine ⟨by rw [he]; norm_num, by rw [hfl]; norm_num, by rw [hs]; norm_num, ht,
          by rw [ht]; norm_num⟩

/-- C6 (amended).  On every pacer tick: after at least 1 s the window is
reset; on an overshoot the pacer sleeps sleep_ns/1000 microseconds only
when 0 < sleep_ns < 100000 ns, and performs no sleep when the computed
sleep reaches 100 us - the overshoot sleep is cut off, not clamped; in
all cases the performed sleep is under 100 us. -/
theorem C6_pacer_sleep_behaviour (bytes ws cur hz : Nat) :
    (pacer_elapsed_sec ws cur hz ≥ 1 →
      pacer_tick bytes ws cur hz
        = { bytes_in_window := 0, window_start_tsc := cur, slept_us := 0 })
    ∧ (¬ pacer_elapsed_sec ws cur hz ≥ 1 →
        bytes > ⌊(target_bytes_per_sec : ℚ) * pacer_elapsed_sec ws cur hz⌋₊ →
        100000 ≤ pacer_sleep_ns bytes ws cur hz →
        (pacer_tick bytes ws cur hz).slept_us = 0)
    ∧ (¬ pacer_elapsed_sec ws cur hz ≥ 1 →
        bytes > ⌊(target_bytes_per_sec : ℚ) * pacer_elapsed_sec ws cur hz⌋₊ →
        0 < pacer_sleep_ns bytes ws cur hz →
        pacer_sleep_ns bytes ws cur hz < 100000 →
        (pacer_tick bytes ws cur hz).slept_us = pacer_sleep_ns bytes ws cur hz / 1000)
    ∧ (pacer_tick bytes ws cur hz).slept_us < 100 := by
  refine ⟨?_, ?_, ?_, ?_⟩
  · intro h
    simp only [pacer_tick]
    rw [if_pos h]
  · intro h1 h2 h3
    simp only [pacer_tick]
    rw [if_neg h1, if_pos h2,
        if_neg (by omega :
          ¬ (pacer_sleep_ns bytes ws cur hz > 0 ∧ pacer_sleep_ns bytes ws cur hz < 100000))]
  · intro h1 h2 h3 h4
    simp only [pacer_tick]
    rw [if_neg h1, if_pos h2, if_pos ⟨h3, h4⟩]
  · simp only [pacer_tick]
    split_ifs with h1 h2 h3
    · show (0:Nat) < 100
      norm_num
    · have := h3.2
      show pacer_sleep_ns bytes ws cur hz / 1000 < 100
      omega
    · show (0:Nat) < 100
      norm_num
    · show (0:Nat) < 100
      norm_num

/-- Witness for C6_pacer_sleep_behaviour: a 75 kB overshoot at elapsed
0.1 s gives sleep_ns = 50000, so the pacer sleeps 50 us. -/
theorem C6_pacer_sleep_behaviour_witness :
    (¬ pacer_elapsed_sec 0 100000000 1000000000 ≥ 1)
    ∧ 150075000 > ⌊(target_bytes_per_sec : ℚ) * pacer_elapsed_sec 0 100000000 1000000000⌋₊
    ∧ 0 < pacer_sleep_ns 150075000 0 100000000 1000000000
    ∧ pacer_sleep_ns 150075000 0 100000000 1000000000 < 100000
    ∧ (pacer_tick 150075000 0 100000000 1000000000).slept_us
        = pacer_sleep_ns 150075000 0 100000000 1000000000 / 1000 := by
  have he : pacer_elapsed_sec 0 100000000 1000000000 = 1/10 := by
    unfold pacer_elapsed_sec; norm_num
  have hfl : ⌊(target_bytes_per_sec : ℚ) * pacer_elapsed_sec 0 100000000 1000000000⌋₊
      = 150000000 := by
    rw [he]; norm_num [target_bytes_per_sec]
  have hs : pacer_sleep_ns 150075000 0 100000000 1000000000 = 50000 := by
    unfold pacer_sleep_ns
    rw [he]
    norm_num [target_bytes_per_sec]
  have h1 : ¬ pacer_elapsed_sec 0 100000000 1000000000 ≥ 1 := by rw [he]; norm_num
  have h2 : 150075000 > ⌊(target_bytes_per_sec : ℚ) * pacer_elapsed_sec 0 100000000 1000000000⌋₊ := by
    rw [hfl]; norm_num
  have h3 : 0 < pacer_sleep_ns 150075000 0 100000000 1000000000 := by rw [hs]; norm_num
  have h4 : pacer_sleep_ns 150075000 0 100000000 1000000000 < 100000 := by rw [hs]; norm_num
  exact ⟨h1, h2, h3, h4,
    (C6_pacer_sleep_behaviour 150075000 0 100000000 1000000000).2.2.1 h1 h2 h3 h4⟩

/-! ## QUIC ACK-frame scanner (C7) -/

lemma ack_scan_step_advances (payload : List Nat) (a l offset : Nat) :
    offset + 1 ≤ (ack_scan_step payload a l offset).2.2 := by
  simp only [ack_scan_step]
  split_ifs <;> simp

lemma ack_scan_loop_iters_le (payload : List Nat) :
    ∀ fuel a l offset,
      (ack_scan_loop payload fuel a l offset).2.2 ≤ payload.length - offset := by
  intro fuel
  induction fuel with
  | zero => intro a l offset; show (0:Nat) ≤ _; exact Nat.zero_le _
  | succ fuel ih =>
      intro a l offset
      show (if offset < payload.length - 1 then _ else (a, l, 0)).2.2 ≤ _
      split_ifs with hguard
      · have hadv := ack_scan_step_advances payload a l offset
        have hrest := ih (ack_scan_step payload a l offset).1
          (ack_scan_step payload a l offset).2.1 (ack_scan_step payload a l offset).2.2
        show (ack_scan_loop payload fuel _ _ _).2.2 + 1 ≤ _
        omega
      · show (0:Nat) ≤ _; exact Nat.zero_le _

lemma ack_scan_loop_fuel_irrelevant (payload : List Nat) :
    ∀ f1 f2 a l offset, payload.length - offset ≤ f1 → payload.length - offset ≤ f2 →
      ack_scan_loop payload f1 a l offset = ack_scan_loop payload f2 a l offset := by
  intro f1
  induction f1 with
  | zero =>
      intro f2 a l offset h1 _
      cases f2 with
      | zero => rfl
      | succ g =>
          show (a, l, 0) = if offset < payload.length - 1 then _ else (a, l, 0)
          rw [if_neg (by omega)]
  | succ f1 ih =>
      intro f2 a l offset h1 h2
      cases f2 with
      | zero =>
          show (if offset < payload.length - 1 then _ else (a, l, 0)) = (a, l, 0)
          rw [if_neg (by omega)]
      | succ g2 =>
          show (if offset < payload.length - 1 then _ else (a, l, 0))
             = (if offset < payload.length - 1 then _ else (a, l, 0))
          split_ifs with hguard
          · have hadv := ack_scan_step_advances payload a l offset
            have heq := ih g2 (ack_scan_step payload a l offset).1
                  (ack_scan_step payload a l offset).2.1
                  (ack_scan_step payload a l offset).2.2 (by omega) (by omega)
            simp only [heq]
          · rfl

/-- C7 counterexample.  A 100-byte short-header payload consisting of
PADDING frames drives the scan loop through 86 iterations: there is no
64-iteration clamp in parse_quic_for_acks. -/
theorem C7_counterexample_more_than_64_iterations :
    (parse_quic_for_acks (0x40 :: List.replicate 99 0)).2.2 = 86
    ∧ ¬ (parse_quic_for_acks (0x40 :: List.replicate 99 0)).2.2 ≤ 64 := by
  refine ⟨by decide, by decide⟩

/-- C7 (amended).  The scanner terminates on every input: each loop
iteration advances the offset by at least one byte, the iteration count
is bounded by the payload length (not by 64), and the structural fuel
the embedding threads is immaterial - any fuel of at least the payload
length gives the identical result. -/
theorem C7_scanner_terminates (payload : List Nat) (fuel : Nat)
    (hf : payload.length ≤ fuel) :
    (parse_quic_for_acks payload).2.2 ≤ payload.length
    ∧ (∀ a l offset, offset + 1 ≤ (ack_scan_step payload a l offset).2.2)
    ∧ (∀ a l offset, ack_scan_loop payload fuel a l offset
        = ack_scan_loop payload payload.length a l offset) := by
  refine ⟨?_, fun a l offset => ack_scan_step_advances payload a l offset,
          fun a l offset => ack_scan_loop_fuel_irrelevant payload fuel payload.length a l offset
            (le_trans (Nat.sub_le _ _) hf) (Nat.sub_le _ _)⟩
  simp only [parse_quic_for_acks]
  split_ifs <;>
    first
      | exact Nat.zero_le _
      | exact le_trans (ack_scan_loop_iters_le payload _ _ _ _) (Nat.sub_le _ _)

/-- Witness for C7_scanner_terminates on a concrete 4-byte payload with
fuel 10. -/
theorem C7_scanner_terminates_witness :
    ([0x40, 0, 0, 0] : List Nat).length ≤ 10
    ∧ (parse_quic_for_acks [0x40, 0, 0, 0]).2.2 ≤ ([0x40, 0, 0, 0] : List Nat).length
    ∧ (ack_scan_loop [0x40, 0, 0, 0] 10 0 0 13
        = ack_scan_loop [0x40, 0, 0, 0] ([0x40, 0, 0, 0] : List Nat).length 0 0 13) :=
  ⟨by norm_num,
   (C7_scanner_terminates [0x40, 0, 0, 0] 10 (by norm_num)).1,
   (C7_scanner_terminates [0x40, 0, 0, 0] 10 (by norm_num)).2.2 0 0 13⟩

/-! ## Detection tick: rule gating (C1) -/

lemma rule_cascade_gate_false (st1 : DetectState) (u s i h : Bool) (a : Nat) :
    rule_cascade st1 false u s i h a = (st1, false) := rfl

lemma rule_cascade_udp_fires (st1 : DetectState) (s i h : Bool) (a : Nat)
    (halert : st1.alert_level = ALERT_NONE) :
    (rule_cascade st1 true true s i h a).1.udp_flood_detections
        = add64 st1.udp_flood_detections 1
    ∧ (rule_cascade st1 true true s i h a).1.alert_level = ALERT_HIGH := by
  cases s <;> cases i <;> cases h <;>
    simp [rule_cascade, halert, ALERT_NONE, ALERT_HIGH]

lemma rule_cascade_syn_fires (st1 : DetectState) (u i h : Bool) (a : Nat)
    (halert : st1.alert_level = ALERT_NONE) :
    (rule_cascade st1 true u true i h a).1.syn_flood_detections
        = add64 st1.syn_flood_detections 1
    ∧ (rule_cascade st1 true u true i h a).1.alert_level = ALERT_HIGH := by
  cases u <;> cases i <;> cases h <;>
    simp [rule_cascade, halert, ALERT_NONE, ALERT_HIGH]

lemma rule_cascade_icmp_fires (st1 : DetectState) (u s h : Bool) (a : Nat)
    (halert : st1.alert_level = ALERT_NONE) :
    (rule_cascade st1 true u s true h a).1.icmp_flood_detections
        = add64 st1.icmp_flood_detections 1
    ∧ (rule_cascade st1 true u s true h a).1.alert_level = ALERT_HIGH := by
  cases u <;> cases s <;> cases h <;>
    simp [rule_cascade, halert, ALERT_NONE, ALERT_HIGH]

lemma rule_cascade_http_fires (st1 : DetectState) (u s i : Bool) (a : Nat)
    (halert : st1.alert_level = ALERT_NONE) :
    (rule_cascade st1 true u s i true a).1.http_flood_detections
        = add64 st1.http_flood_detections 1
    ∧ (rule_cascade st1 true u s i true a).1.alert_level = ALERT_HIGH := by
  cases u <;> cases s <;> cases i <;>
    simp [rule_cascade, halert, ALERT_NONE, ALERT_HIGH]

set_option maxHeartbeats 2000000 in
lemma rule_cascade_udp_not_fired (st1 : DetectState) (g s i h : Bool) (a : Nat) :
    (rule_cascade st1 g false s i h a).1.udp_flood_detections
      = st1.udp_flood_detections := by
  cases g <;> cases s <;> cases i <;> cases h <;>
    (simp [rule_cascade]; try (split_ifs <;> simp))

set_option maxHeartbeats 2000000 in
lemma rule_cascade_syn_not_fired (st1 : DetectState) (g u i h : Bool) (a : Nat) :
    (rule_cascade st1 g u false i h a).1.syn_flood_detections
      = st1.syn_flood_detections := by
  cases g <;> cases u <;> cases i <;> cases h <;>
    (simp [rule_cascade]; try (split_ifs <;> simp))

set_option maxHeartbeats 2000000 in
lemma rule_cascade_icmp_not_fired (st1 : DetectState) (g u s h : Bool) (a : Nat) :
    (rule_cascade st1 g u s false h a).1.icmp_flood_detections
      = st1.icmp_flood_detections := by
  cases g <;> cases u <;> cases s <;> cases h <;>
    (simp [rule_cascade]; try (split_ifs <;> simp))

set_option maxHeartbeats 2000000 in
lemma rule_cascade_http_not_fired (st1 : DetectState) (g u s i : Bool) (a : Nat) :
    (rule_cascade st1 g u s i false a).1.http_flood_detections
      = st1.http_flood_detections := by
  cases g <;> cases u <;> cases s <;> cases i <;>
    (simp [rule_cascade]; try (split_ifs <;> simp))

set_option maxHeartbeats 2000000 in
lemma record_detection_preserves (st : DetectState) (cur hz : Nat) :
    (record_detection st cur hz).udp_flood_detections = st.udp_flood_detections
    ∧ (record_detection st cur hz).syn_flood_detections = st.syn_flood_detections
    ∧ (record_detection st cur hz).icmp_flood_detections = st.icmp_flood_detections
    ∧ (record_detection st cur hz).http_flood_detections = st.http_flood_detections
    ∧ (record_detection st cur hz).total_flood_detections = st.total_flood_detections
    ∧ (record_detection st cur hz).alert_level = st.alert_level := by
  refine ⟨?_, ?_, ?_, ?_, ?_, ?_⟩ <;> (simp only [record_detection]; split_ifs <;> rfl)

/-- C1 counterexample.  A valid tick (elapsed 1 s, window 1 s) with
40000 SYN packets in the window: syn_pps = 40000 exceeds the 30000 SYN
threshold, yet because attack_pps = 40000 does not exceed the 50000
attack-traffic gate no rule fires, the SYN-flood counter stays 0 and the
alert level stays None instead of High. -/
theorem C1_counterexample_attack_pps_gate :
    (¬ (((1000000000 - initDetectState.last_fast_detection_tsc : Nat) : ℚ)
          / ((1000000000 : Nat) : ℚ) < 0.05))
    ∧ ¬ (windowSecQ initDetectState 1000000000 1000000000 < 0.1)
    ∧ ratePps ((({ window_baseline_pkts := List.replicate 14 0
                   window_attack_pkts := 40000 :: List.replicate 13 0
                   worker_stats :=
                     { syn_packets := 40000, udp_packets := 0, icmp_packets := 0,
                       http_requests := 0, dns_queries := 0 } :: List.replicate 13
                       { syn_packets := 0, udp_packets := 0, icmp_packets := 0,
                         http_requests := 0, dns_queries := 0 } } : CoordInput).worker_stats.map
                  (fun w => w.syn_packets)).sum)
        (windowSecQ initDetectState 1000000000 1000000000) > 30000
    ∧ (detect_attacks initDetectState octosketch_init (List.replicate 14 octosketch_init)
        { window_baseline_pkts := List.replicate 14 0
          window_attack_pkts := 40000 :: List.replicate 13 0
          worker_stats :=
            { syn_packets := 40000, udp_packets := 0, icmp_packets := 0,
              http_requests := 0, dns_queries := 0 } :: List.replicate 13
              { syn_packets := 0, udp_packets := 0, icmp_packets := 0,
                http_requests := 0, dns_queries := 0 } }
        1000000000 1000000000).1.syn_flood_detections = 0
    ∧ (detect_attacks initDetectState octosketch_init (List.replicate 14 octosketch_init)
        { window_baseline_pkts := List.replicate 14 0
          window_attack_pkts := 40000 :: List.replicate 13 0
          worker_stats :=
            { syn_packets := 40000, udp_packets := 0, icmp_packets := 0,
              http_requests := 0, dns_queries := 0 } :: List.replicate 13
              { syn_packets := 0, udp_packets := 0, icmp_packets := 0,
                http_requests := 0, dns_queries := 0 } }
        1000000000 1000000000).1.alert_level = ALERT_NONE
    ∧ ALERT_NONE ≠ ALERT_HIGH
    ∧ (detect_attacks initDetectState octosketch_init (List.replicate 14 octosketch_init)
        { window_baseline_pkts := List.replicate 14 0
          window_attack_pkts := 40000 :: List.replicate 13 0
          worker_stats :=
            { syn_packets := 40000, udp_packets := 0, icmp_packets := 0,
              http_requests := 0, dns_queries := 0 } :: List.replicate 13
              { syn_packets := 0, udp_packets := 0, icmp_packets := 0,
                http_requests := 0, dns_queries := 0 } }
        1000000000 1000000000).1.total_detection_events = 0 := by
  with_unfolding_all decide

lemma rule_cascade_udp_fires_count (st1 : DetectState) (s i h : Bool) (a : Nat) :
    (rule_cascade st1 true true s i h a).1.udp_flood_detections
      = add64 st1.udp_flood_detections 1 := by
  cases s <;> cases i <;> cases h <;> simp [rule_cascade]

lemma rule_cascade_syn_fires_count (st1 : DetectState) (u i h : Bool) (a : Nat) :
    (rule_cascade st1 true u true i h a).1.syn_flood_detections
      = add64 st1.syn_flood_detections 1 := by
  cases u <;> cases i <;> cases h <;> simp [rule_cascade]

lemma rule_cascade_icmp_fires_count (st1 : DetectState) (u s h : Bool) (a : Nat) :
    (rule_cascade st1 true u s true h a).1.icmp_flood_detections
      = add64 st1.icmp_flood_detections 1 := by
  cases u <;> cases s <;> cases h <;> simp [rule_cascade]

lemma rule_cascade_http_fires_count (st1 : DetectState) (u s i : Bool) (a : Nat) :
    (rule_cascade st1 true u s i true a).1.http_flood_detections
      = add64 st1.http_flood_detections 1 := by
  cases u <;> cases s <;> cases i <;> simp [rule_cascade]

lemma rule_cascade_udp_fires_alert (st1 : DetectState) (s i h : Bool) (a : Nat)
    (halert : st1.alert_level = ALERT_NONE) :
    (rule_cascade st1 true true s i h a).1.alert_level = ALERT_HIGH :=
  (rule_cascade_udp_fires st1 s i h a halert).2

lemma rule_cascade_syn_fires_alert (st1 : DetectState) (u i h : Bool) (a : Nat)
    (halert : st1.alert_level = ALERT_NONE) :
    (rule_cascade st1 true u true i h a).1.alert_level = ALERT_HIGH :=
  (rule_cascade_syn_fires st1 u i h a halert).2

lemma rule_cascade_icmp_fires_alert (st1 : DetectState) (u s h : Bool) (a : Nat)
    (halert : st1.alert_level = ALERT_NONE) :
    (rule_cascade st1 true u s true h a).1.alert_level = ALERT_HIGH :=
  (rule_cascade_icmp_fires st1 u s h a halert).2

lemma rule_cascade_http_fires_alert (st1 : DetectState) (u s i : Bool) (a : Nat)
    (halert : st1.alert_level = ALERT_NONE) :
    (rule_cascade st1 true u s i true a).1.alert_level = ALERT_HIGH :=
  (rule_cascade_http_fires st1 u s i a halert).2

set_option maxHeartbeats 8000000 in
/-- C1 (amended).  On every detection tick that runs (at least 50 ms
since the last tick) with a valid evaluation window (at least 0.1 s),
the flood rules are gated on attack traffic being present AND its rate
exceeding 50000 pps: under the gate each flood rule fires exactly when
its per-second rate exceeds its threshold (UDP 20000, SYN 30000,
ICMP 10000, HTTP 15000) and firing raises a High alert within the tick;
without the gate no rule fires and the alert stays None, no matter how
high the per-rule rates are. -/
theorem C1_flood_rules_gated_on_attack_pps
    (st : DetectState) (merged : Octosketch) (sketches : List Octosketch)
    (inp : CoordInput) (cur_tsc hz : Nat)
    (hrun : ¬ (((cur_tsc - st.last_fast_detection_tsc : Nat) : ℚ) / (hz : ℚ) < 0.05))
    (hwin : ¬ (windowSecQ st cur_tsc hz < 0.1)) :
    (¬ (inp.window_attack_pkts.sum > 0
          ∧ ratePps inp.window_attack_pkts.sum (windowSecQ st cur_tsc hz) > 50000) →
       (detect_attacks st merged sketches inp cur_tsc hz).1.udp_flood_detections
           = st.udp_flood_detections
       ∧ (detect_attacks st merged sketches inp cur_tsc hz).1.syn_flood_detections
           = st.syn_flood_detections
       ∧ (detect_attacks st merged sketches inp cur_tsc hz).1.icmp_flood_detections
           = st.icmp_flood_detections
       ∧ (detect_attacks st merged sketches inp cur_tsc hz).1.http_flood_detections
           = st.http_flood_detections
       ∧ (detect_attacks st merged sketches inp cur_tsc hz).1.total_flood_detections
           = st.total_flood_detections
       ∧ (detect_attacks st merged sketches inp cur_tsc hz).1.alert_level = ALERT_NONE
       ∧ (detect_attacks st merged sketches inp cur_tsc hz).1.total_detection_events
           = st.total_detection_events)
    ∧ ((inp.window_attack_pkts.sum > 0
          ∧ ratePps inp.window_attack_pkts.sum (windowSecQ st cur_tsc hz) > 50000) →
       (ratePps ((inp.worker_stats.map (fun w => w.syn_packets)).sum)
            (windowSecQ st cur_tsc hz) > 30000 →
          (detect_attacks st merged sketches inp cur_tsc hz).1.syn_flood_detections
              = add64 st.syn_flood_detections 1
          ∧ (detect_attacks st merged sketches inp cur_tsc hz).1.alert_level = ALERT_HIGH)
       ∧ (ratePps ((inp.worker_stats.map (fun w => w.udp_packets)).sum)
            (windowSecQ st cur_tsc hz) > 20000 →
          (detect_attacks st merged sketches inp cur_tsc hz).1.udp_flood_detections
              = add64 st.udp_flood_detections 1
          ∧ (detect_attacks st merged sketches inp cur_tsc hz).1.alert_level = ALERT_HIGH)
       ∧ (ratePps ((inp.worker_stats.map (fun w => w.icmp_packets)).sum)
            (windowSecQ st cur_tsc hz) > 10000 →
          (detect_attacks st merged sketches inp cur_tsc hz).1.icmp_flood_detections
              = add64 st.icmp_flood_detections 1
          ∧ (detect_attacks st merged sketches inp cur_tsc hz).1.alert_level = ALERT_HIGH)
       ∧ (ratePps ((inp.worker_stats.map (fun w => w.http_requests)).sum)
            (windowSecQ st cur_tsc hz) > 15000 →
          (detect_attacks st merged sketches inp cur_tsc hz).1.http_flood_detections
              = add64 st.http_flood_detections 1
          ∧ (detect_attacks st merged sketches inp cur_tsc hz).1.alert_level = ALERT_HIGH))
    ∧ (¬ ratePps ((inp.worker_stats.map (fun w => w.syn_packets)).sum)
            (windowSecQ st cur_tsc hz) > 30000 →
       (detect_attacks st merged sketches inp cur_tsc hz).1.syn_flood_detections
           = st.syn_flood_detections)
    ∧ (¬ ratePps ((inp.worker_stats.map (fun w => w.udp_packets)).sum)
            (windowSecQ st cur_tsc hz) > 20000 →
       (detect_attacks st merged sketches inp cur_tsc hz).1.udp_flood_detections
           = st.udp_flood_detections)
    ∧ (¬ ratePps ((inp.worker_stats.map (fun w => w.icmp_packets)).sum)
            (windowSecQ st cur_tsc hz) > 10000 →
       (detect_attacks st merged sketches inp cur_tsc hz).1.icmp_flood_detections
           = st.icmp_flood_detections)
    ∧ (¬ ratePps ((inp.worker_stats.map (fun w => w.http_requests)).sum)
            (windowSecQ st cur_tsc hz) > 15000 →
       (detect_attacks st merged sketches inp cur_tsc hz).1.http_flood_detections
           = st.http_flood_detections) := by
  simp only [detect_attacks]
  rw [if_neg hrun, if_neg hwin]
  generalize hst1 : ({ st with last_fast_detection_tsc := cur_tsc, alert_level := ALERT_NONE, alert_reason := [] } : DetectState) = s1
  have h1alert : s1.alert_level = ALERT_NONE := by rw [← hst1]
  have h1udp : s1.udp_flood_detections = st.udp_flood_detections := by rw [← hst1]
  have h1syn : s1.syn_flood_detections = st.syn_flood_detections := by rw [← hst1]
  have h1icmp : s1.icmp_flood_detections = st.icmp_flood_detections := by rw [← hst1]
  have h1http : s1.http_flood_detections = st.http_flood_detections := by rw [← hst1]
  have h1total : s1.total_flood_detections = st.total_flood_detections := by rw [← hst1]
  have h1events : s1.total_detection_events = st.total_detection_events := by rw [← hst1]
  refine ⟨?_, ?_, ?_, ?_, ?_, ?_⟩
  · intro hg
    rw [decide_eq_false hg, rule_cascade_gate_false]
    rw [if_neg (by simp : ¬ ((s1, false).2 = true))]
    split_ifs with hw <;>
      exact ⟨h1udp, h1syn, h1icmp, h1http, h1total, h1alert, h1events⟩
  · intro hg
    rw [decide_eq_true hg]
    refine ⟨?_, ?_, ?_, ?_⟩
    · intro hs
      rw [decide_eq_true hs]
      constructor
      · split_ifs <;>
          simp only [(record_detection_preserves _ _ _).2.1,
            rule_cascade_syn_fires_count, h1syn]
      · split_ifs <;>
          simp only [(record_detection_preserves _ _ _).2.2.2.2.2,
            rule_cascade_syn_fires_alert s1 _ _ _ _ h1alert]
    · intro hu
      rw [decide_eq_true hu]
      constructor
      · split_ifs <;>
          simp only [(record_detection_preserves _ _ _).1,
            rule_cascade_udp_fires_count, h1udp]
      · split_ifs <;>
          simp only [(record_detection_preserves _ _ _).2.2.2.2.2,
            rule_cascade_udp_fires_alert s1 _ _ _ _ h1alert]
    · intro hi
      rw [decide_eq_true hi]
      constructor
      · split_ifs <;>
          simp only [(record_detection_preserves _ _ _).2.2.1,
            rule_cascade_icmp_fires_count, h1icmp]
      · split_ifs <;>
          simp only [(record_detection_preserves _ _ _).2.2.2.2.2,
            rule_cascade_icmp_fires_alert s1 _ _ _ _ h1alert]
    · intro hh
      rw [decide_eq_true hh]
      constructor
      · split_ifs <;>
          simp only [(record_detection_preserves _ _ _).2.2.2.1,
            rule_cascade_http_fires_count, h1http]
      · split_ifs <;>
          simp only [(record_detection_preserves _ _ _).2.2.2.2.2,
            rule_cascade_http_fires_alert s1 _ _ _ _ h1alert]
  · intro hs
    rw [decide_eq_false hs]
    split_ifs <;>
      simp only [(record_detection_preserves _ _ _).2.1,
        rule_cascade_syn_not_fired, h1syn]
  · intro hu
    rw [decide_eq_false hu]
    split_ifs <;>
      simp only [(record_detection_preserves _ _ _).1,
        rule_cascade_udp_not_fired, h1udp]
  · intro hi
    rw [decide_eq_false hi]
    split_ifs <;>
      simp only [(record_detection_preserves _ _ _).2.2.1,
        rule_cascade_icmp_not_fired, h1icmp]
  · intro hh
    rw [decide_eq_false hh]
    split_ifs <;>
      simp only [(record_detection_preserves _ _ _).2.2.2.1,
        rule_cascade_http_not_fired, h1http]

/-- Witness for C1_flood_rules_gated_on_attack_pps: a valid tick with
60000 attack packets and 40000 SYN packets over a 1 s window fires the
SYN-flood rule and raises a High alert. -/
theorem C1_flood_rules_gated_witness :
    (¬ (((1000000000 - initDetectState.last_fast_detection_tsc : Nat) : ℚ)
          / ((1000000000 : Nat) : ℚ) < 0.05))
    ∧ (¬ (windowSecQ initDetectState 1000000000 1000000000 < 0.1))
    ∧ (({ window_baseline_pkts := List.replicate 14 0, window_attack_pkts := 60000 :: List.replicate 13 0, worker_stats := { syn_packets := 40000, udp_packets := 0, icmp_packets := 0, http_requests := 0, dns_queries := 0 } :: List.replicate 13 { syn_packets := 0, udp_packets := 0, icmp_packets := 0, http_requests := 0, dns_queries := 0 } } : CoordInput).window_attack_pkts.sum > 0
        ∧ ratePps ({ window_baseline_pkts := List.replicate 14 0, window_attack_pkts := 60000 :: List.replicate 13 0, worker_stats := { syn_packets := 40000, udp_packets := 0, icmp_packets := 0, http_requests := 0, dns_queries := 0 } :: List.replicate 13 { syn_packets := 0, udp_packets := 0, icmp_packets := 0, http_requests := 0, dns_queries := 0 } } : CoordInput).window_attack_pkts.sum
            (windowSecQ initDetectState 1000000000 1000000000) > 50000)
    ∧ (ratePps ((({ window_baseline_pkts := List.replicate 14 0, window_attack_pkts := 60000 :: List.replicate 13 0, worker_stats := { syn_packets := 40000, udp_packets := 0, icmp_packets := 0, http_requests := 0, dns_queries := 0 } :: List.replicate 13 { syn_packets := 0, udp_packets := 0, icmp_packets := 0, http_requests := 0, dns_queries := 0 } } : CoordInput).worker_stats.map (fun w => w.syn_packets)).sum)
          (windowSecQ initDetectState 1000000000 1000000000) > 30000)
    ∧ ((detect_attacks initDetectState octosketch_init (List.replicate 14 octosketch_init)
        ({ window_baseline_pkts := List.replicate 14 0, window_attack_pkts := 60000 :: List.replicate 13 0, worker_stats := { syn_packets := 40000, udp_packets := 0, icmp_packets := 0, http_requests := 0, dns_queries := 0 } :: List.replicate 13 { syn_packets := 0, udp_packets := 0, icmp_packets := 0, http_requests := 0, dns_queries := 0 } } : CoordInput)
        1000000000 1000000000).1.syn_flood_detections
          = add64 initDetectState.syn_flood_detections 1
       ∧ (detect_attacks initDetectState octosketch_init (List.replicate 14 octosketch_init)
        ({ window_baseline_pkts := List.replicate 14 0, window_attack_pkts := 60000 :: List.replicate 13 0, worker_stats := { syn_packets := 40000, udp_packets := 0, icmp_packets := 0, http_requests := 0, dns_queries := 0 } :: List.replicate 13 { syn_packets := 0, udp_packets := 0, icmp_packets := 0, http_requests := 0, dns_queries := 0 } } : CoordInput)
        1000000000 1000000000).1.alert_level = ALERT_HIGH) := by
  have h1 : ¬ (((1000000000 - initDetectState.last_fast_detection_tsc : Nat) : ℚ)
      / ((1000000000 : Nat) : ℚ) < 0.05) := by with_unfolding_all decide
  have h2 : ¬ (windowSecQ initDetectState 1000000000 1000000000 < 0.1) := by
    with_unfolding_all decide
  have h3 : ({ window_baseline_pkts := List.replicate 14 0, window_attack_pkts := 60000 :: List.replicate 13 0, worker_stats := { syn_packets := 40000, udp_packets := 0, icmp_packets := 0, http_requests := 0, dns_queries := 0 } :: List.replicate 13 { syn_packets := 0, udp_packets := 0, icmp_packets := 0, http_requests := 0, dns_queries := 0 } } : CoordInput).window_attack_pkts.sum > 0
      ∧ ratePps ({ window_baseline_pkts := List.replicate 14 0, window_attack_pkts := 60000 :: List.replicate 13 0, worker_stats := { syn_packets := 40000, udp_packets := 0, icmp_packets := 0, http_requests := 0, dns_queries := 0 } :: List.replicate 13 { syn_packets := 0, udp_packets := 0, icmp_packets := 0, http_requests := 0, dns_queries := 0 } } : CoordInput).window_attack_pkts.sum
          (windowSecQ initDetectState 1000000000 1000000000) > 50000 := by
    with_unfolding_all decide
  have h4 : ratePps ((({ window_baseline_pkts := List.replicate 14 0, window_attack_pkts := 60000 :: List.replicate 13 0, worker_stats := { syn_packets := 40000, udp_packets := 0, icmp_packets := 0, http_requests := 0, dns_queries := 0 } :: List.replicate 13 { syn_packets := 0, udp_packets := 0, icmp_packets := 0, http_requests := 0, dns_queries := 0 } } : CoordInput).worker_stats.map (fun w => w.syn_packets)).sum)
      (windowSecQ initDetectState 1000000000 1000000000) > 30000 := by
    with_unfolding_all decide
  exact ⟨h1, h2, h3, h4,
    ((C1_flood_rules_gated_on_attack_pps initDetectState octosketch_init
        (List.replicate 14 octosketch_init)
        ({ window_baseline_pkts := List.replicate 14 0, window_attack_pkts := 60000 :: List.replicate 13 0, worker_stats := { syn_packets := 40000, udp_packets := 0, icmp_packets := 0, http_requests := 0, dns_queries := 0 } :: List.replicate 13 { syn_packets := 0, udp_packets := 0, icmp_packets := 0, http_requests := 0, dns_queries := 0 } } : CoordInput)
        1000000000 1000000000 h1 h2).2.1 h3).1 h4⟩

/-! ## Detection latency histogram (C4) -/

/-- C4 counterexample.  Driving the detection-event recorder with six
events whose inter-arrival gaps are 10, 25, 35, 45 and 60 ms (hz = 1000,
one tick per millisecond) puts one event in each bin, but
total_detection_events is 6, not 5, and the minimum is 0, not 10: the
first event is recorded with the first-detection latency (0 here, no
attack packet seen) and is never placed in a histogram bin. -/
theorem C4_counterexample_first_event_counted :
    (List.foldl (fun s t => record_detection s t 1000) initDetectState
        [100, 110, 135, 170, 215, 275]).detections_under_20ms = 1
    ∧ (List.foldl (fun s t => record_detection s t 1000) initDetectState
        [100, 110, 135, 170, 215, 275]).detections_20_30ms = 1
    ∧ (List.foldl (fun s t => record_detection s t 1000) initDetectState
        [100, 110, 135, 170, 215, 275]).detections_30_40ms = 1
    ∧ (List.foldl (fun s t => record_detection s t 1000) initDetectState
        [100, 110, 135, 170, 215, 275]).detections_40_50ms = 1
    ∧ (List.foldl (fun s t => record_detection s t 1000) initDetectState
        [100, 110, 135, 170, 215, 275]).detections_over_50ms = 1
    ∧ (List.foldl (fun s t => record_detection s t 1000) initDetectState
        [100, 110, 135, 170, 215, 275]).total_detection_events = 6
    ∧ (List.foldl (fun s t => record_detection s t 1000) initDetectState
        [100, 110, 135, 170, 215, 275]).min_detection_latency_ms = 0
    ∧ ¬ ((List.foldl (fun s t => record_detection s t 1000) initDetectState
        [100, 110, 135, 170, 215, 275]).total_detection_events = 5
         ∧ (List.foldl (fun s t => record_detection s t 1000) initDetectState
        [100, 110, 135, 170, 215, 275]).min_detection_latency_ms = 10) := by
  with_unfolding_all decide

/-- C4 (amended).  With a first detection event followed by five events
at inter-detection gaps 10, 25, 35, 45, 60 ms, each of the five
histogram bins holds exactly one event and max = 60, sum = 175; but
count (total_detection_events) is 6 and min is the first-detection
latency 0, because the first event initialises min/max/sum from the
latency since the first attack packet and is not placed into any bin -
only the events after the first are binned, so the bins sum to
count - 1. -/
theorem C4_histogram_bucketing
    (st : DetectState) (cur hz : Nat) (hfirst : st.detection_triggered = false) :
    ((List.foldl (fun s t => record_detection s t 1000) initDetectState
        [100, 110, 135, 170, 215, 275]).detections_under_20ms = 1
     ∧ (List.foldl (fun s t => record_detection s t 1000) initDetectState
        [100, 110, 135, 170, 215, 275]).detections_20_30ms = 1
     ∧ (List.foldl (fun s t => record_detection s t 1000) initDetectState
        [100, 110, 135, 170, 215, 275]).detections_30_40ms = 1
     ∧ (List.foldl (fun s t => record_detection s t 1000) initDetectState
        [100, 110, 135, 170, 215, 275]).detections_40_50ms = 1
     ∧ (List.foldl (fun s t => record_detection s t 1000) initDetectState
        [100, 110, 135, 170, 215, 275]).detections_over_50ms = 1
     ∧ (List.foldl (fun s t => record_detection s t 1000) initDetectState
        [100, 110, 135, 170, 215, 275]).min_detection_latency_ms = 0
     ∧ (List.foldl (fun s t => record_detection s t 1000) initDetectState
        [100, 110, 135, 170, 215, 275]).max_detection_latency_ms = 60
     ∧ (List.foldl (fun s t => record_detection s t 1000) initDetectState
        [100, 110, 135, 170, 215, 275]).sum_detection_latencies_ms = 175
     ∧ (List.foldl (fun s t => record_detection s t 1000) initDetectState
        [100, 110, 135, 170, 215, 275]).total_detection_events = 6
     ∧ (List.foldl (fun s t => record_detection s t 1000) initDetectState
        [100, 110, 135, 170, 215, 275]).detections_under_20ms
       + (List.foldl (fun s t => record_detection s t 1000) initDetectState
        [100, 110, 135, 170, 215, 275]).detections_20_30ms
       + (List.foldl (fun s t => record_detection s t 1000) initDetectState
        [100, 110, 135, 170, 215, 275]).detections_30_40ms
       + (List.foldl (fun s t => record_detection s t 1000) initDetectState
        [100, 110, 135, 170, 215, 275]).detections_40_50ms
       + (List.foldl (fun s t => record_detection s t 1000) initDetectState
        [100, 110, 135, 170, 215, 275]).detections_over_50ms
       = (List.foldl (fun s t => record_detection s t 1000) initDetectState
        [100, 110, 135, 170, 215, 275]).total_detection_events - 1)
    ∧ ((record_detection st cur hz).detections_under_20ms = st.detections_under_20ms
       ∧ (record_detection st cur hz).detections_20_30ms = st.detections_20_30ms
       ∧ (record_detection st cur hz).detections_30_40ms = st.detections_30_40ms
       ∧ (record_detection st cur hz).detections_40_50ms = st.detections_40_50ms
       ∧ (record_detection st cur hz).detections_over_50ms = st.detections_over_50ms) := by
  constructor
  · with_unfolding_all decide
  · refine ⟨?_, ?_, ?_, ?_, ?_⟩ <;> simp [record_detection, hfirst]

/-- Witness for C4_histogram_bucketing: the recorder applied to the
fresh (untriggered) state at tick 50 leaves all five bins empty. -/
theorem C4_histogram_bucketing_witness :
    initDetectState.detection_triggered = false
    ∧ (record_detection initDetectState 50 1000).detections_under_20ms
        = initDetectState.detections_under_20ms
    ∧ (record_detection initDetectState 50 1000).detections_over_50ms
        = initDetectState.detections_over_50ms :=
  ⟨rfl,
   (C4_histogram_bucketing initDetectState 50 1000 rfl).2.1,
   (C4_histogram_bucketing initDetectState 50 1000 rfl).2.2.2.2.2⟩
